import Mathlib

/-!
Verification of the wind-payload descent simulator.

The development shallowly embeds the Python sources of the repository:

* `src/backend/physics.py`   — `update_position`
* `src/backend/simulator.py` — `simulate_payload_drop` (while loop over
  timesteps, Monte Carlo loop over runs, statistics assembly)
* `src/backend/wind_model.py` — `WindModel.__init__` / `predict` (the
  pandas/sklearn library calls are abstracted as explicit parameters)
* `src/backend/main.py`      — parameter validation of the HTTP endpoints

Machine floats are embedded as exact rationals `ℚ`; `numpy`'s `std` needs a
square root and is embedded over `ℝ`.  The pseudo-random draws of
`np.random.normal(mu, sigma)` are embedded in location-scale form
`mu + sigma * xi` where `xi` is the next draw of an explicit stream of
standard-normal variates, so a simulation is a deterministic function of the
wind model and the draw stream.
-/

namespace WindPayload

/-- Python's `round(q, 2)` at the heart: round a rational to the nearest
integer, ties going to the even integer (banker's rounding, the semantics of
Python's built-in `round`). -/
def round_half_even (q : ℚ) : ℤ :=
  if q - ⌊q⌋ < 1/2 then ⌊q⌋
  else if 1/2 < q - ⌊q⌋ then ⌊q⌋ + 1
  else if ⌊q⌋ % 2 = 0 then ⌊q⌋ else ⌊q⌋ + 1

/-- Python's `round(q, 2)`: round to two decimal places. -/
def round2 (q : ℚ) : ℚ := (round_half_even (q * 100) : ℚ) / 100

/-- `src/backend/physics.py`, `update_position`: horizontal drift from wind
exposure, vertical descent at constant rate. -/
def update_position (x y z u_wind v_wind descent_rate dt : ℚ) : ℚ × ℚ × ℚ :=
  (x + u_wind * dt, y + v_wind * dt, z - descent_rate * dt)

/-- Output of `WindModel.predict` in `src/backend/wind_model.py`: the tuple
`(u_mean, v_mean, u_std, v_std)`. -/
structure WindEstimate where
  u_mean : ℚ
  v_mean : ℚ
  u_std : ℚ
  v_std : ℚ
deriving DecidableEq

/-- A fitted wind model is queried only through `predict`; it is embedded as
the function `altitude_km ↦ (u_mean, v_mean, u_std, v_std)`. -/
def WindModel : Type := ℚ → WindEstimate

/-- `np.random.normal(mu, sigma)` in location-scale form: `xi` is the
standard-normal draw consumed from the stream. -/
def np_random_normal (mu sigma xi : ℚ) : ℚ := mu + sigma * xi

/-- One recorded timestep of `simulate_payload_drop`
(`trajectory.append({...})` in `src/backend/simulator.py`). -/
structure TrajectoryPoint where
  altitude_km : ℚ
  x_drift_m : ℚ
  y_drift_m : ℚ
deriving DecidableEq

/-- One element of `landing_points` in `src/backend/simulator.py`. -/
structure LandingPoint where
  x_drift_m : ℚ
  y_drift_m : ℚ
deriving DecidableEq

/-- The inner `while z > 0` loop of `simulate_payload_drop`
(`src/backend/simulator.py`, lines 19-41), embedded with explicit fuel:
`none` means the fuel was exhausted before the loop finished (for
`descent_rate ≤ 0` the Python loop never finishes).  `k` is the index of the
next pair of standard-normal draws in the stream `ξ`; the returned triple is
the trajectory list together with the final full-precision `x` and `y`. -/
def simRun (wm : WindModel) (ξ : ℕ → ℚ × ℚ) (descent_rate dt : ℚ) :
    ℕ → ℕ → ℚ → ℚ → ℚ → Option (List TrajectoryPoint × ℚ × ℚ)
  | 0, _, _, _, _ => none
  | fuel + 1, k, x, y, z =>
    if 0 < z then
      let current_alt_km := z / 1000
      let w := wm current_alt_km
      let u_sample := np_random_normal w.u_mean (max w.u_std (1/2)) (ξ k).1
      let v_sample := np_random_normal w.v_mean (max w.v_std (3/10)) (ξ k).2
      let p := update_position x y z u_sample v_sample descent_rate dt
      match simRun wm ξ descent_rate dt fuel (k + 1) p.1 p.2.1 p.2.2 with
      | none => none
      | some (rest, lx, ly) =>
        some (⟨round2 current_alt_km, round2 p.1, round2 p.2.1⟩ :: rest, lx, ly)
    else
      some ([], x, y)

/-- Modelled from the spec: one timestep of the single-run state machine as
the spec and claim C1 word it — query `WindEstimator.predict(z/1000)`, draw
`u_sample ~ Normal(u_mean, max(u_std, 0.5))` and
`v_sample ~ Normal(v_mean, max(v_std, 0.3))`, then update
`x += u_sample*dt; y += v_sample*dt; z -= descent_rate*dt` with `dt = 1`.
The state is the triple `(x, y, z)`. -/
def specStep (wm : WindModel) (ξ : ℕ → ℚ × ℚ) (descent_rate : ℚ) (k : ℕ)
    (s : ℚ × ℚ × ℚ) : ℚ × ℚ × ℚ :=
  let dt : ℚ := 1
  let w := wm (s.2.2 / 1000)
  let u_sample := np_random_normal w.u_mean (max w.u_std (1/2)) (ξ k).1
  let v_sample := np_random_normal w.v_mean (max w.v_std (3/10)) (ξ k).2
  (s.1 + u_sample * dt, s.2.1 + v_sample * dt, s.2.2 - descent_rate * dt)

/-- `n` transitions of the spec state machine starting from state `s`, the
next standard-normal draw being `ξ k`.  There is no rounding anywhere in
`specStep`/`specSteps`: this is the full-precision state sequence. -/
def specSteps (wm : WindModel) (ξ : ℕ → ℚ × ℚ) (descent_rate : ℚ) :
    ℕ → ℚ × ℚ × ℚ → ℕ → ℚ × ℚ × ℚ
  | _, s, 0 => s
  | k, s, n + 1 => specSteps wm ξ descent_rate (k + 1) (specStep wm ξ descent_rate k s) n

/-- Closed form of the trajectory recorded by `n` iterations of the loop body
of `simulate_payload_drop` from state `s`: the altitude at the start of each
step and the drift right after the update, rounded to 2 decimals. -/
def trajOf (wm : WindModel) (ξ : ℕ → ℚ × ℚ) (descent_rate : ℚ) :
    ℕ → ℚ × ℚ × ℚ → ℕ → List TrajectoryPoint
  | _, _, 0 => []
  | k, s, n + 1 =>
    ⟨round2 (s.2.2 / 1000), round2 (specStep wm ξ descent_rate k s).1,
      round2 (specStep wm ξ descent_rate k s).2.1⟩ ::
      trajOf wm ξ descent_rate (k + 1) (specStep wm ξ descent_rate k s) n

/-- `np.mean` over a list of rationals. -/
def np_mean (xs : List ℚ) : ℚ := xs.sum / xs.length

/-- The radicand of `np.std`: the population variance
`mean((x - x.mean())²)` — not the sample-corrected one. -/
def np_variance (xs : List ℚ) : ℚ :=
  (xs.map (fun x => (x - np_mean xs) ^ 2)).sum / xs.length

/-- `np.std`: square root of the population variance. -/
noncomputable def np_std (xs : List ℚ) : ℝ := Real.sqrt (np_variance xs)

/-- Banker's rounding to the nearest integer over `ℝ`, for values (the
standard deviations) that live outside `ℚ`. -/
noncomputable def round_half_evenR (x : ℝ) : ℤ :=
  if x - ⌊x⌋ < 1/2 then ⌊x⌋
  else if 1/2 < x - ⌊x⌋ then ⌊x⌋ + 1
  else if ⌊x⌋ % 2 = 0 then ⌊x⌋ else ⌊x⌋ + 1

/-- `round(x, 2)` over `ℝ`. -/
noncomputable def round2R (x : ℝ) : ℝ := (round_half_evenR (x * 100) : ℝ) / 100

/-- The `landing_statistics` dictionary of `simulate_payload_drop`. -/
structure LandingStats where
  mean_x_drift_m : ℚ
  mean_y_drift_m : ℚ
  std_x_drift_m : ℝ
  std_y_drift_m : ℝ

/-- Statistics assembly of `simulate_payload_drop`
(`src/backend/simulator.py`, lines 49-60): mean and standard deviation of the
(already rounded) landing coordinates, rounded to 2 decimals. -/
noncomputable def mkStats (landing_x landing_y : List ℚ) : LandingStats where
  mean_x_drift_m := round2 (np_mean landing_x)
  mean_y_drift_m := round2 (np_mean landing_y)
  std_x_drift_m := round2R (np_std landing_x)
  std_y_drift_m := round2R (np_std landing_y)

/-- The result dictionary returned by `simulate_payload_drop`. -/
structure MCResult where
  monte_carlo_runs : ℕ
  landing_points : List LandingPoint
  landing_statistics : LandingStats
  representative_trajectory : List TrajectoryPoint

/-- The `for _ in range(monte_carlo_runs)` loop of `simulate_payload_drop`:
run `count` single runs, run `i` drawing from the stream `ξ i`; collect the
rounded landing points in order and keep the trajectory of the last run
(the Python variable `trajectory` simply survives the loop).  `none` if some
run exhausts its fuel. -/
def monteCarloLoop (wm : WindModel) (ξ : ℕ → ℕ → ℚ × ℚ) (descent_rate dt z0 : ℚ)
    (fuel : ℕ) : ℕ → ℕ → Option (List LandingPoint × List TrajectoryPoint)
  | _, 0 => some ([], [])
  | i, count + 1 =>
    match simRun wm (ξ i) descent_rate dt fuel 0 0 0 z0 with
    | none => none
    | some (trajectory, lx, ly) =>
      match monteCarloLoop wm ξ descent_rate dt z0 fuel (i + 1) count with
      | none => none
      | some (rest, lastTraj) =>
        some (⟨round2 lx, round2 ly⟩ :: rest,
          if count = 0 then trajectory else lastTraj)

/-- `simulate_payload_drop` of `src/backend/simulator.py`.  `fuel` bounds
the number of iterations of the inner `while z > 0` loop (the Python loop is
unbounded; every claim instantiates `fuel` large enough, and `none` models a
loop that never finishes).  `payload_mass` is accepted and never read. -/
noncomputable def simulate_payload_drop (wm : WindModel) (ξ : ℕ → ℕ → ℚ × ℚ)
    (fuel : ℕ) (drop_altitude_km payload_mass descent_rate : ℚ)
    (monte_carlo_runs : ℕ) : Option MCResult :=
  let dt : ℚ := 1
  match monteCarloLoop wm ξ descent_rate dt (drop_altitude_km * 1000) fuel 0
      monte_carlo_runs with
  | none => none
  | some (landing_points, trajectory) =>
    let landing_x := landing_points.map (·.x_drift_m)
    let landing_y := landing_points.map (·.y_drift_m)
    some { monte_carlo_runs := monte_carlo_runs
           landing_points := landing_points
           landing_statistics := mkStats landing_x landing_y
           representative_trajectory := trajectory }

/-- Errors surfaced by the layers of `src/backend/main.py`.
`httpException status detail` embeds FastAPI's `HTTPException`;
`invalidParameterError` is the error type named by the spec, which the code
never constructs — it is present so that statements about it can be made. -/
inductive ApiError
  | httpException (status : ℕ) (detail : String)
  | invalidParameterError
deriving DecidableEq

/-- The parameter checks of the `/simulate-drop` endpoint
(`src/backend/main.py`, `simulate_drop`): the value is `some e` when the
endpoint raises `e` before calling the simulator, `none` when the parameters
are accepted.  `payload_mass` is not validated. -/
def simulate_drop_validate (drop_altitude_km payload_mass descent_rate : ℚ)
    (monte_carlo_runs : ℤ) : Option ApiError :=
  if ¬(20 ≤ drop_altitude_km ∧ drop_altitude_km ≤ 50) then
    some (.httpException 400 "Drop altitude must be between 20 and 50 km")
  else if descent_rate ≤ 0 then
    some (.httpException 400 "Descent rate must be positive")
  else if ¬(10 ≤ monte_carlo_runs ∧ monte_carlo_runs ≤ 200) then
    some (.httpException 400 "Monte Carlo runs must be between 10 and 200")
  else none

/-- One row of the training CSV (`altitude_km, u_wind, v_wind`). -/
structure WindSampleRow where
  altitude_km : ℚ
  u_wind : ℚ
  v_wind : ℚ
deriving DecidableEq

/-- Errors at interpreter startup in `src/backend/main.py`.
`runtimeError msg` embeds Python's `RuntimeError`; `dataError` is the error
type named by the spec, which the code never constructs. -/
inductive StartupError
  | runtimeError (msg : String)
  | dataError
deriving DecidableEq

/-- `WindModel.__init__` of `src/backend/wind_model.py`.  The external
library calls are abstracted as parameters: `read_csv` is the outcome of
`pd.read_csv` plus column extraction, `gprFit` the outcome of
`GaussianProcessRegressor.fit` on the parsed rows (called once for the zonal
and once for the meridional component).  `__init__` adds no validation of its
own: any library error propagates unchanged, and whatever the libraries
accept is accepted. -/
def windModelInit (read_csv : Except String (List WindSampleRow))
    (gprFit : List WindSampleRow → Except String Unit) :
    Except String (List WindSampleRow) := do
  let data ← read_csv
  let _ ← gprFit data
  let _ ← gprFit data
  pure data

/-- The module-level construction of the wind model in `src/backend/main.py`:
`try: wind_model = WindModel(...) except Exception as e: raise
RuntimeError(f"Failed to load wind model: {str(e)}")`. -/
def initWindModelMain (read_csv : Except String (List WindSampleRow))
    (gprFit : List WindSampleRow → Except String Unit) :
    Except StartupError (List WindSampleRow) :=
  match windModelInit read_csv gprFit with
  | Except.ok m => Except.ok m
  | Except.error e =>
    Except.error (StartupError.runtimeError ("Failed to load wind model: " ++ e))

/-- A wind model answering every altitude query with the same estimate. -/
def constWindModel (u_mean v_mean u_std v_std : ℚ) : WindModel :=
  fun _ => ⟨u_mean, v_mean, u_std, v_std⟩

/-- The all-zero standard-normal draw stream: every `np.random.normal`
returns its mean exactly (deterministic mode). -/
def zeroDraws : ℕ → ℚ × ℚ := fun _ => (0, 0)

/-! ### Facts about banker's rounding -/

theorem round_half_even_ge_floor (q : ℚ) : ⌊q⌋ ≤ round_half_even q := by
  unfold round_half_even
  split_ifs <;> omega

theorem round_half_even_le_floor_add_one (q : ℚ) : round_half_even q ≤ ⌊q⌋ + 1 := by
  unfold round_half_even
  split_ifs <;> omega

theorem round_half_even_mono {q q' : ℚ} (h : q ≤ q') :
    round_half_even q ≤ round_half_even q' := by
  rcases lt_or_eq_of_le (Int.floor_le_floor h) with hf | hf
  · calc round_half_even q ≤ ⌊q⌋ + 1 := round_half_even_le_floor_add_one q
    _ ≤ ⌊q'⌋ := by omega
    _ ≤ round_half_even q' := round_half_even_ge_floor q'
  · unfold round_half_even
    rw [hf]
    split_ifs <;> first | omega | linarith

theorem round_half_even_nonneg {q : ℚ} (h : 0 ≤ q) : 0 ≤ round_half_even q := by
  have h0 : (0 : ℤ) ≤ ⌊q⌋ := Int.floor_nonneg.mpr h
  have := round_half_even_ge_floor q
  omega

theorem round2_mono {q q' : ℚ} (h : q ≤ q') : round2 q ≤ round2 q' := by
  unfold round2
  have : round_half_even (q * 100) ≤ round_half_even (q' * 100) :=
    round_half_even_mono (by linarith)
  have : (round_half_even (q * 100) : ℚ) ≤ (round_half_even (q' * 100) : ℚ) := by
    exact_mod_cast this
  linarith

theorem round_half_evenR_ge_floor (x : ℝ) : ⌊x⌋ ≤ round_half_evenR x := by
  unfold round_half_evenR
  split_ifs <;> omega

theorem round2R_nonneg {x : ℝ} (h : 0 ≤ x) : 0 ≤ round2R x := by
  unfold round2R
  have h0 : (0 : ℤ) ≤ ⌊x * 100⌋ := Int.floor_nonneg.mpr (by linarith)
  have h1 := round_half_evenR_ge_floor (x * 100)
  have h2 : (0 : ℝ) ≤ (round_half_evenR (x * 100) : ℝ) := by exact_mod_cast by omega
  linarith

theorem round2R_zero : round2R 0 = 0 := by
  unfold round2R round_half_evenR
  norm_num

/-! ### Facts about the numpy statistics embedding -/

theorem np_mean_singleton (x : ℚ) : np_mean [x] = x := by
  simp [np_mean]

theorem np_variance_singleton (x : ℚ) : np_variance [x] = 0 := by
  simp [np_variance, np_mean]

theorem np_std_singleton (x : ℚ) : np_std [x] = 0 := by
  rw [np_std, np_variance_singleton]
  simp [Real.sqrt_zero]

theorem np_std_nonneg (xs : List ℚ) : 0 ≤ np_std xs := Real.sqrt_nonneg _

/-! ### The ceiling of the remaining step count -/

theorem ceil_pos_sub_one (a : ℚ) (h : 0 < a) : ⌈a⌉₊ = ⌈a - 1⌉₊ + 1 := by
  rcases le_or_lt a 1 with h1 | h1
  · have e0 : ⌈a - 1⌉₊ = 0 := Nat.ceil_eq_zero.mpr (by linarith)
    have e1 : ⌈a⌉₊ = 1 := by
      refine le_antisymm ?_ ?_
      · exact Nat.ceil_le.mpr (by exact_mod_cast h1)
      · exact Nat.one_le_iff_ne_zero.mpr (by positivity)
    omega
  · have ha : 0 < a - 1 := by linarith
    have hm : 1 ≤ ⌈a - 1⌉₊ := Nat.one_le_iff_ne_zero.mpr (by positivity)
    refine (Nat.ceil_eq_iff (by omega)).mpr ⟨?_, ?_⟩
    · have hlow : (↑(⌈a - 1⌉₊ - 1) : ℚ) < a - 1 := by
        have := (Nat.ceil_eq_iff (by omega)).mp (rfl : ⌈a - 1⌉₊ = ⌈a - 1⌉₊)
        exact this.1
      push_cast [Nat.cast_sub hm] at hlow ⊢
      linarith
    · have hup : a - 1 ≤ (⌈a - 1⌉₊ : ℚ) := Nat.le_ceil _
      push_cast
      linarith

theorem ceil_div_pos_z {z r : ℚ} (hr : 0 < r) (hz : 0 < z) : 0 < ⌈z / r⌉₊ :=
  Nat.ceil_pos.mpr (div_pos hz hr)

theorem ceil_div_zero_z {z r : ℚ} (hr : 0 < r) (hz : ⌈z / r⌉₊ = 0) : z ≤ 0 := by
  by_contra hc
  push_neg at hc
  exact absurd hz (Nat.pos_iff_ne_zero.mp (ceil_div_pos_z hr hc))

theorem ceil_div_step {z r : ℚ} (hr : 0 < r) (hz : 0 < z) :
    ⌈z / r⌉₊ = ⌈(z - r) / r⌉₊ + 1 := by
  have : (z - r) / r = z / r - 1 := by field_simp
  rw [this]
  exact ceil_pos_sub_one _ (div_pos hz hr)

/-! ### The spec state machine in closed form -/

theorem specSteps_succ (wm : WindModel) (ξ : ℕ → ℚ × ℚ) (r : ℚ) (k : ℕ)
    (s : ℚ × ℚ × ℚ) (n : ℕ) :
    specSteps wm ξ r k s (n + 1) =
      specSteps wm ξ r (k + 1) (specStep wm ξ r k s) n := rfl

theorem specSteps_z (wm : WindModel) (ξ : ℕ → ℚ × ℚ) (r : ℚ) :
    ∀ (n : ℕ) (k : ℕ) (s : ℚ × ℚ × ℚ),
      (specSteps wm ξ r k s n).2.2 = s.2.2 - n * r := by
  intro n
  induction n with
  | zero => intro k s; simp [specSteps]
  | succ m ih =>
    intro k s
    rw [specSteps_succ, ih]
    simp [specStep]
    ring

theorem trajOf_length (wm : WindModel) (ξ : ℕ → ℚ × ℚ) (r : ℚ) :
    ∀ (n : ℕ) (k : ℕ) (s : ℚ × ℚ × ℚ), (trajOf wm ξ r k s n).length = n := by
  intro n
  induction n with
  | zero => intro k s; simp [trajOf]
  | succ m ih => intro k s; simp [trajOf, ih]

/-- Each recorded trajectory point is the 2-decimal rounding of the
full-precision state: the altitude at the start of step `j`, the drift right
after step `j`. -/
theorem trajOf_eq_map (wm : WindModel) (ξ : ℕ → ℚ × ℚ) (r : ℚ) :
    ∀ (n : ℕ) (k : ℕ) (s : ℚ × ℚ × ℚ),
      trajOf wm ξ r k s n = (List.range n).map (fun j =>
        ⟨round2 ((specSteps wm ξ r k s j).2.2 / 1000),
          round2 ((specSteps wm ξ r k s (j + 1)).1),
          round2 ((specSteps wm ξ r k s (j + 1)).2.1)⟩) := by
  intro n
  induction n with
  | zero => intro k s; simp [trajOf]
  | succ m ih =>
    intro k s
    rw [List.range_succ_eq_map, List.map_cons, List.map_map]
    show trajOf wm ξ r k s (m + 1) = _ :: _
    rw [trajOf, ih (k + 1) (specStep wm ξ r k s)]
    congr 1

/-- The `while z > 0` loop of `simulate_payload_drop` computes exactly the
spec state machine: given fuel beyond the ceiling of the remaining step
count, the loop returns the recorded trajectory together with the final
full-precision `x` and `y` of the iterated `specStep`. -/
theorem simRun_spec (wm : WindModel) (ξ : ℕ → ℚ × ℚ) {r : ℚ} (hr : 0 < r) :
    ∀ (n : ℕ) (k : ℕ) (x y z : ℚ), ⌈z / r⌉₊ = n → ∀ (fuel : ℕ), n < fuel →
      simRun wm ξ r 1 fuel k x y z =
        some (trajOf wm ξ r k (x, y, z) n,
          (specSteps wm ξ r k (x, y, z) n).1,
          (specSteps wm ξ r k (x, y, z) n).2.1) := by
  intro n
  induction n with
  | zero =>
    intro k x y z hz fuel hfuel
    obtain ⟨f, rfl⟩ : ∃ f, fuel = f + 1 := ⟨fuel - 1, by omega⟩
    have hz0 : ¬ 0 < z := not_lt.mpr (ceil_div_zero_z hr hz)
    simp [simRun, hz0, trajOf, specSteps]
  | succ m ih =>
    intro k x y z hz fuel hfuel
    obtain ⟨f, rfl⟩ : ∃ f, fuel = f + 1 := ⟨fuel - 1, by omega⟩
    have hz0 : 0 < z := by
      by_contra hc
      push_neg at hc
      have hd : z / r ≤ 0 := by
        rw [div_eq_mul_inv]
        exact mul_nonpos_iff.mpr (Or.inr ⟨hc, (inv_pos.mpr hr).le⟩)
      have : ⌈z / r⌉₊ = 0 := Nat.ceil_eq_zero.mpr hd
      omega
    have hnext : ⌈(z - r * 1) / r⌉₊ = m := by
      have := ceil_div_step hr hz0
      rw [mul_one]
      omega
    have hrec := ih (k + 1)
      (x + np_random_normal (wm (z / 1000)).u_mean (max (wm (z / 1000)).u_std (1/2)) (ξ k).1 * 1)
      (y + np_random_normal (wm (z / 1000)).v_mean (max (wm (z / 1000)).v_std (3/10)) (ξ k).2 * 1)
      (z - r * 1) hnext f (by omega)
    rw [simRun]
    simp only [hz0, if_true, update_position, hrec]
    have hstep : specStep wm ξ r k (x, y, z) =
        (x + np_random_normal (wm (z / 1000)).u_mean (max (wm (z / 1000)).u_std (1/2)) (ξ k).1 * 1,
         y + np_random_normal (wm (z / 1000)).v_mean (max (wm (z / 1000)).v_std (3/10)) (ξ k).2 * 1,
         z - r * 1) := rfl
    rw [show trajOf wm ξ r k (x, y, z) (m + 1) =
        ⟨round2 (z / 1000), round2 (specStep wm ξ r k (x, y, z)).1,
          round2 (specStep wm ξ r k (x, y, z)).2.1⟩ ::
          trajOf wm ξ r (k + 1) (specStep wm ξ r k (x, y, z)) m from rfl]
    rw [specSteps_succ, hstep]

/-- The full-precision landing position of run `i` (the state after all `n`
steps of the spec machine, starting from the origin at altitude `z0`). -/
def runFinal (wm : WindModel) (ξ : ℕ → ℕ → ℚ × ℚ) (r z0 : ℚ) (n : ℕ) (i : ℕ) :
    ℚ × ℚ × ℚ :=
  specSteps wm (ξ i) r 0 (0, 0, z0) n

/-- The trajectory recorded by run `i`. -/
def runTraj (wm : WindModel) (ξ : ℕ → ℕ → ℚ × ℚ) (r z0 : ℚ) (n : ℕ) (i : ℕ) :
    List TrajectoryPoint :=
  trajOf wm (ξ i) r 0 (0, 0, z0) n

/-- The Monte Carlo loop in closed form: with sufficient fuel it returns the
rounded landing points of runs `i, i+1, …, i+count-1` in order, and the
trajectory of the last of them. -/
theorem monteCarloLoop_spec (wm : WindModel) (ξ : ℕ → ℕ → ℚ × ℚ) {r : ℚ}
    (hr : 0 < r) (z0 : ℚ) {n : ℕ} (hn : ⌈z0 / r⌉₊ = n) {fuel : ℕ}
    (hfuel : n < fuel) :
    ∀ (count i : ℕ),
      monteCarloLoop wm ξ r 1 z0 fuel i count =
        some ((List.range count).map (fun j =>
            ⟨round2 (runFinal wm ξ r z0 n (i + j)).1,
             round2 (runFinal wm ξ r z0 n (i + j)).2.1⟩),
          if count = 0 then [] else runTraj wm ξ r z0 n (i + count - 1)) := by
  intro count
  induction count with
  | zero => intro i; simp [monteCarloLoop]
  | succ c ih =>
    intro i
    rw [monteCarloLoop,
      simRun_spec wm (ξ i) hr n 0 0 0 z0 hn fuel hfuel, ih (i + 1)]
    simp only [runFinal, runTraj]
    rw [List.range_succ_eq_map, List.map_cons, List.map_map]
    refine congrArg some (Prod.ext_iff.mpr ⟨?_, ?_⟩)
    · simp only []
      congr 1
      refine List.map_congr_left fun a ha => ?_
      have h3 : i + 1 + a = i + (a + 1) := by omega
      simp only [Function.comp_apply, Nat.succ_eq_add_one, h3]
    · simp only []
      rcases Nat.eq_zero_or_pos c with rfl | hc
      · simp
      · have h0 : c ≠ 0 := by omega
        have h1 : i + 1 + c - 1 = i + (c + 1) - 1 := by omega
        simp [h0, h1]

/-- `simulate_payload_drop` in closed form, for positive descent rate and
sufficient fuel. -/
theorem simulate_payload_drop_spec (wm : WindModel) (ξ : ℕ → ℕ → ℚ × ℚ)
    {r : ℚ} (hr : 0 < r) (alt mass : ℚ) {n : ℕ} (hn : ⌈alt * 1000 / r⌉₊ = n)
    {fuel : ℕ} (hfuel : n < fuel) (runs : ℕ) :
    simulate_payload_drop wm ξ fuel alt mass r runs =
      some { monte_carlo_runs := runs
             landing_points := (List.range runs).map (fun j =>
               ⟨round2 (runFinal wm ξ r (alt * 1000) n j).1,
                round2 (runFinal wm ξ r (alt * 1000) n j).2.1⟩)
             landing_statistics := mkStats
               (((List.range runs).map (fun j =>
                 (⟨round2 (runFinal wm ξ r (alt * 1000) n j).1,
                  round2 (runFinal wm ξ r (alt * 1000) n j).2.1⟩ :
                    LandingPoint))).map (·.x_drift_m))
               (((List.range runs).map (fun j =>
                 (⟨round2 (runFinal wm ξ r (alt * 1000) n j).1,
                  round2 (runFinal wm ξ r (alt * 1000) n j).2.1⟩ :
                    LandingPoint))).map (·.y_drift_m))
             representative_trajectory :=
               if runs = 0 then [] else runTraj wm ξ r (alt * 1000) n (runs - 1) } := by
  rw [simulate_payload_drop,
    monteCarloLoop_spec wm ξ hr (alt * 1000) hn hfuel runs 0]
  simp

/-- With zero mean wind and the all-zero draw stream, every sample is zero
and the horizontal position never moves. -/
theorem specSteps_zero_wind (us vs : ℚ → ℚ) (r : ℚ) :
    ∀ (n : ℕ) (k : ℕ) (x y z : ℚ),
      specSteps (fun a => ⟨0, 0, us a, vs a⟩) zeroDraws r k (x, y, z) n =
        (x, y, z - n * r) := by
  intro n
  induction n with
  | zero => intro k x y z; simp [specSteps]
  | succ m ih =>
    intro k x y z
    rw [specSteps_succ]
    have hstep : specStep (fun a => ⟨0, 0, us a, vs a⟩) zeroDraws r k (x, y, z) =
        (x, y, z - r) := by
      simp [specStep, np_random_normal, zeroDraws]
    rw [hstep, ih]
    have : z - r - m * r = z - (m + 1 : ℕ) * r := by push_cast; ring
    rw [this]

/-- The altitudes recorded in a trajectory depend only on the initial
altitude and the descent rate. -/
theorem trajOf_altitudes (wm : WindModel) (ξ : ℕ → ℚ × ℚ) (r : ℚ)
    (n : ℕ) (k : ℕ) (s : ℚ × ℚ × ℚ) :
    (trajOf wm ξ r k s n).map (·.altitude_km) =
      (List.range n).map (fun (j : ℕ) => round2 ((s.2.2 - (j : ℚ) * r) / 1000)) := by
  rw [trajOf_eq_map, List.map_map]
  refine List.map_congr_left fun a _ => ?_
  simp only [Function.comp_apply]
  rw [specSteps_z]

/-! ### Claim C1 -/

/-- Claim C1: each Monte Carlo run is the spec state machine started at
`x = 0, y = 0, z = drop_altitude_km * 1000`; each timestep queries the wind
estimator at `z/1000`, draws `u_sample` from `Normal(u_mean, max(u_std, 0.5))`
and `v_sample` from `Normal(v_mean, max(v_std, 0.3))` and updates
`x += u_sample*dt, y += v_sample*dt, z -= descent_rate*dt` with `dt = 1`
(all of which is the definition of `specStep`), looping until `z ≤ 0`:
the code's loop `simRun` returns exactly the iterated `specStep` state, the
loop runs while `z > 0` and stops as soon as `z ≤ 0`. -/
theorem C1_single_run_follows_spec_state_machine (wm : WindModel)
    (ξ : ℕ → ℚ × ℚ) (alt r : ℚ) (halt : 0 < alt) (hr : 0 < r) :
    (∀ k < ⌈alt * 1000 / r⌉₊,
      0 < (specSteps wm ξ r 0 (0, 0, alt * 1000) k).2.2) ∧
    (specSteps wm ξ r 0 (0, 0, alt * 1000) ⌈alt * 1000 / r⌉₊).2.2 ≤ 0 ∧
    simRun wm ξ r 1 (⌈alt * 1000 / r⌉₊ + 1) 0 0 0 (alt * 1000) =
      some (trajOf wm ξ r 0 (0, 0, alt * 1000) ⌈alt * 1000 / r⌉₊,
        (specSteps wm ξ r 0 (0, 0, alt * 1000) ⌈alt * 1000 / r⌉₊).1,
        (specSteps wm ξ r 0 (0, 0, alt * 1000) ⌈alt * 1000 / r⌉₊).2.1) := by
  refine ⟨?_, ?_, ?_⟩
  · intro k hk
    rw [specSteps_z]
    show 0 < alt * 1000 - (k : ℚ) * r
    have : (k : ℚ) < alt * 1000 / r := Nat.lt_ceil.mp hk
    have := (lt_div_iff hr).mp this
    linarith
  · rw [specSteps_z]
    show alt * 1000 - (⌈alt * 1000 / r⌉₊ : ℚ) * r ≤ 0
    have : alt * 1000 / r ≤ (⌈alt * 1000 / r⌉₊ : ℚ) := Nat.le_ceil _
    have := (div_le_iff hr).mp this
    linarith
  · exact simRun_spec wm ξ hr _ 0 0 0 (alt * 1000) rfl _ (Nat.lt_succ_self _)

/-- Witness for C1 at `drop_altitude_km = 1/1000`, `descent_rate = 1`, a
constant zero wind model and the zero draw stream. -/
theorem C1_witness :
    (∀ k < ⌈(1/1000 : ℚ) * 1000 / 1⌉₊,
      0 < (specSteps (constWindModel 0 0 0 0) zeroDraws 1 0
        (0, 0, (1/1000 : ℚ) * 1000) k).2.2) ∧
    (specSteps (constWindModel 0 0 0 0) zeroDraws 1 0
      (0, 0, (1/1000 : ℚ) * 1000) ⌈(1/1000 : ℚ) * 1000 / 1⌉₊).2.2 ≤ 0 ∧
    simRun (constWindModel 0 0 0 0) zeroDraws 1 1
        (⌈(1/1000 : ℚ) * 1000 / 1⌉₊ + 1) 0 0 0 ((1/1000 : ℚ) * 1000) =
      some (trajOf (constWindModel 0 0 0 0) zeroDraws 1 0
          (0, 0, (1/1000 : ℚ) * 1000) ⌈(1/1000 : ℚ) * 1000 / 1⌉₊,
        (specSteps (constWindModel 0 0 0 0) zeroDraws 1 0
          (0, 0, (1/1000 : ℚ) * 1000) ⌈(1/1000 : ℚ) * 1000 / 1⌉₊).1,
        (specSteps (constWindModel 0 0 0 0) zeroDraws 1 0
          (0, 0, (1/1000 : ℚ) * 1000) ⌈(1/1000 : ℚ) * 1000 / 1⌉₊).2.1) :=
  C1_single_run_follows_spec_state_machine (constWindModel 0 0 0 0) zeroDraws
    (1/1000) 1 (by norm_num) (by norm_num)

/-! ### Claim C3 -/

/-- Claim C3: for positive drop altitude and descent rate every single run
terminates — with any fuel beyond `⌈drop_altitude_km*1000/descent_rate⌉` the
while loop returns — and performs at most
`⌈drop_altitude_km*1000/descent_rate⌉` timesteps (trajectory entries). -/
theorem C3_run_terminates_within_ceil_bound (wm : WindModel) (ξ : ℕ → ℚ × ℚ)
    (alt r : ℚ) (halt : 0 < alt) (hr : 0 < r) :
    ∀ fuel, ⌈alt * 1000 / r⌉₊ < fuel →
      ∃ traj lx ly, simRun wm ξ r 1 fuel 0 0 0 (alt * 1000) =
          some (traj, lx, ly) ∧ traj.length ≤ ⌈alt * 1000 / r⌉₊ := by
  intro fuel hfuel
  refine ⟨_, _, _, simRun_spec wm ξ hr _ 0 0 0 (alt * 1000) rfl fuel hfuel, ?_⟩
  rw [trajOf_length]

/-- Witness for C3 at `drop_altitude_km = 1/1000`, `descent_rate = 1`,
fuel 2. -/
theorem C3_witness :
    ∃ traj lx ly, simRun (constWindModel 0 0 0 0) zeroDraws 1 1 2 0 0 0
        ((1/1000 : ℚ) * 1000) = some (traj, lx, ly) ∧
      traj.length ≤ ⌈(1/1000 : ℚ) * 1000 / 1⌉₊ :=
  C3_run_terminates_within_ceil_bound (constWindModel 0 0 0 0) zeroDraws
    (1/1000) 1 (by norm_num) (by norm_num) 2 (by norm_num)

/-! ### Claim C7 -/

/-- Claim C7: in deterministic mode — realized by the all-zero draw stream,
under which every `np.random.normal(mu, sigma)` returns its mean `mu`
exactly — a single run with `drop_altitude_km = 30`, `descent_rate = 5` and a
wind model whose `u` and `v` means are `0` at every altitude (any
uncertainties `us`, `vs`) lands at `(0, 0)` and records exactly 6000
trajectory steps. -/
theorem C7_deterministic_zero_wind_scenario (us vs : ℚ → ℚ) :
    ∃ traj, simRun (fun a => ⟨0, 0, us a, vs a⟩) zeroDraws 5 1 6001 0 0 0
        (30 * 1000) = some (traj, 0, 0) ∧ traj.length = 6000 := by
  have hN : ⌈(30 * 1000 : ℚ) / 5⌉₊ = 6000 := by norm_num
  have h := simRun_spec (fun a => ⟨0, 0, us a, vs a⟩) zeroDraws
    (by norm_num : (0:ℚ) < 5) 6000 0 0 0 (30 * 1000) hN 6001 (by norm_num)
  rw [specSteps_zero_wind] at h
  exact ⟨_, h, trajOf_length _ _ _ _ _ _⟩

/-! ### Claim C9 -/

/-- Claim C9: `payload_mass` has no influence on the result — two
invocations of `simulate_payload_drop` that differ only in `payload_mass`
(same wind model, draw streams, fuel, altitude, descent rate and run count)
return identical results: same landing points, same landing statistics, same
representative trajectory (the result does not even echo the mass). -/
theorem C9_payload_mass_has_no_influence (wm : WindModel) (ξ : ℕ → ℕ → ℚ × ℚ)
    (fuel : ℕ) (alt r mass mass' : ℚ) (runs : ℕ) :
    simulate_payload_drop wm ξ fuel alt mass r runs =
      simulate_payload_drop wm ξ fuel alt mass' r runs := rfl

/-! ### Claim C10 -/

/-- Claim C10: within one Monte Carlo invocation every run performs exactly
`⌈drop_altitude_km*1000/descent_rate⌉` timesteps and records the same
altitude sequence, whatever its wind draws: the altitude list of run `i` is a
function of `drop_altitude_km` and `descent_rate` only. -/
theorem C10_vertical_profile_uniform_across_runs (wm : WindModel)
    (ξ : ℕ → ℕ → ℚ × ℚ) (alt r : ℚ) (halt : 0 < alt) (hr : 0 < r) :
    ∀ i, ∃ lx ly,
      simRun wm (ξ i) r 1 (⌈alt * 1000 / r⌉₊ + 1) 0 0 0 (alt * 1000) =
        some (runTraj wm ξ r (alt * 1000) ⌈alt * 1000 / r⌉₊ i, lx, ly) ∧
      (runTraj wm ξ r (alt * 1000) ⌈alt * 1000 / r⌉₊ i).length =
        ⌈alt * 1000 / r⌉₊ ∧
      (runTraj wm ξ r (alt * 1000) ⌈alt * 1000 / r⌉₊ i).map (·.altitude_km) =
        (List.range ⌈alt * 1000 / r⌉₊).map
          (fun (j : ℕ) => round2 ((alt * 1000 - (j : ℚ) * r) / 1000)) := by
  intro i
  refine ⟨_, _,
    simRun_spec wm (ξ i) hr _ 0 0 0 (alt * 1000) rfl _ (Nat.lt_succ_self _),
    trajOf_length _ _ _ _ _ _, ?_⟩
  exact trajOf_altitudes wm (ξ i) r _ 0 (0, 0, alt * 1000)

/-- Witness for C10 at `drop_altitude_km = 1/1000`, `descent_rate = 1`. -/
theorem C10_witness :
    ∃ lx ly,
      simRun (constWindModel 0 0 0 0) zeroDraws 1 1
          (⌈(1/1000 : ℚ) * 1000 / 1⌉₊ + 1) 0 0 0 ((1/1000 : ℚ) * 1000) =
        some (runTraj (constWindModel 0 0 0 0) (fun _ => zeroDraws) 1
          ((1/1000 : ℚ) * 1000) ⌈(1/1000 : ℚ) * 1000 / 1⌉₊ 0, lx, ly) ∧
      (runTraj (constWindModel 0 0 0 0) (fun _ => zeroDraws) 1
        ((1/1000 : ℚ) * 1000) ⌈(1/1000 : ℚ) * 1000 / 1⌉₊ 0).length =
        ⌈(1/1000 : ℚ) * 1000 / 1⌉₊ ∧
      (runTraj (constWindModel 0 0 0 0) (fun _ => zeroDraws) 1
        ((1/1000 : ℚ) * 1000) ⌈(1/1000 : ℚ) * 1000 / 1⌉₊ 0).map
          (·.altitude_km) =
        (List.range ⌈(1/1000 : ℚ) * 1000 / 1⌉₊).map
          (fun (j : ℕ) => round2 (((1/1000 : ℚ) * 1000 - (j : ℚ) * 1) / 1000)) :=
  C10_vertical_profile_uniform_across_runs (constWindModel 0 0 0 0)
    (fun _ => zeroDraws) (1/1000) 1 (by norm_num) (by norm_num) 0

/-- For a non-positive descent rate the altitude never decreases below its
positive start, so the `while z > 0` loop never finishes: every fuel is
exhausted.  (`simulate_payload_drop` performs no parameter validation.) -/
theorem simRun_nonpos_rate (wm : WindModel) (ξ : ℕ → ℚ × ℚ) {r : ℚ}
    (hr : r ≤ 0) :
    ∀ (fuel : ℕ) (k : ℕ) (x y z : ℚ), 0 < z →
      simRun wm ξ r 1 fuel k x y z = none := by
  intro fuel
  induction fuel with
  | zero => intro k x y z _; rfl
  | succ f ih =>
    intro k x y z hz
    rw [simRun]
    simp only [hz, if_true, update_position]
    rw [ih (k + 1) _ _ (z - r * 1) (by linarith)]

/-! ### Claim C4 -/

/-- Claim C4 counterexample: with `drop_altitude_km = 1/100` (10 m) and
`descent_rate = 1` the recorded `altitude_km` values — rounded to 2
decimals — are `[0.01, 0.01, 0.01, 0.01, 0.01, 0, 0, 0, 0, 0]`, which is not
strictly decreasing, refuting the claim as stated. -/
theorem C4_counterexample :
    (simRun (constWindModel 0 0 0 0) zeroDraws 1 1 11 0 0 0
        ((1/100 : ℚ) * 1000)).map (fun p => p.1.map (·.altitude_km)) =
      some [1/100, 1/100, 1/100, 1/100, 1/100, 0, 0, 0, 0, 0] ∧
    ¬ List.Pairwise (· > ·)
      [(1/100 : ℚ), 1/100, 1/100, 1/100, 1/100, 0, 0, 0, 0, 0] := by
  constructor
  · norm_num [simRun, constWindModel, zeroDraws, np_random_normal,
      update_position, round2, round_half_even]
  · intro h
    have hmem : (1/100 : ℚ) ∈ [(1/100 : ℚ), 1/100, 1/100, 1/100, 0, 0, 0, 0, 0] := by
      simp
    have := (List.pairwise_cons.mp h).1 (1/100) hmem
    exact absurd this (by norm_num)

/-- Claim C4 amended: the recorded `altitude_km` sequence is nonincreasing
in time order — consecutive values can coincide because they are rounded to 2
decimals — while the underlying full-precision altitude component of the
integration state is strictly decreasing. -/
theorem C4_amended_altitudes_nonincreasing (wm : WindModel) (ξ : ℕ → ℚ × ℚ)
    (alt r : ℚ) (halt : 0 < alt) (hr : 0 < r) :
    ∃ traj lx ly,
      simRun wm ξ r 1 (⌈alt * 1000 / r⌉₊ + 1) 0 0 0 (alt * 1000) =
        some (traj, lx, ly) ∧
      List.Pairwise (· ≥ ·) (traj.map (·.altitude_km)) ∧
      List.Pairwise (· > ·) ((List.range (⌈alt * 1000 / r⌉₊ + 1)).map
        (fun (k : ℕ) => (specSteps wm ξ r 0 (0, 0, alt * 1000) k).2.2)) := by
  refine ⟨_, _, _,
    simRun_spec wm ξ hr _ 0 0 0 (alt * 1000) rfl _ (Nat.lt_succ_self _),
    ?_, ?_⟩
  · rw [trajOf_altitudes]
    rw [List.pairwise_map]
    refine List.Pairwise.imp ?_ (List.pairwise_lt_range _)
    intro a b hab
    have hc : (a : ℚ) < (b : ℚ) := by exact_mod_cast hab
    have hmul : (a : ℚ) * r < (b : ℚ) * r := mul_lt_mul_of_pos_right hc hr
    have h1 : (((0:ℚ), (0:ℚ), alt * 1000).2.2 - (b : ℚ) * r) / 1000 ≤
        (((0:ℚ), (0:ℚ), alt * 1000).2.2 - (a : ℚ) * r) / 1000 := by
      show (alt * 1000 - (b : ℚ) * r) / 1000 ≤ (alt * 1000 - (a : ℚ) * r) / 1000
      linarith
    exact round2_mono h1
  · rw [List.pairwise_map]
    refine List.Pairwise.imp ?_ (List.pairwise_lt_range _)
    intro a b hab
    rw [specSteps_z, specSteps_z]
    have hc : (a : ℚ) < (b : ℚ) := by exact_mod_cast hab
    have hmul : (a : ℚ) * r < (b : ℚ) * r := mul_lt_mul_of_pos_right hc hr
    show alt * 1000 - (a : ℚ) * r > alt * 1000 - (b : ℚ) * r
    linarith

/-- Witness for the amended C4 at `drop_altitude_km = 1/1000`,
`descent_rate = 1`. -/
theorem C4_witness :
    ∃ traj lx ly,
      simRun (constWindModel 0 0 0 0) zeroDraws 1 1
          (⌈(1/1000 : ℚ) * 1000 / 1⌉₊ + 1) 0 0 0 ((1/1000 : ℚ) * 1000) =
        some (traj, lx, ly) ∧
      List.Pairwise (· ≥ ·) (traj.map (·.altitude_km)) ∧
      List.Pairwise (· > ·) ((List.range (⌈(1/1000 : ℚ) * 1000 / 1⌉₊ + 1)).map
        (fun (k : ℕ) => (specSteps (constWindModel 0 0 0 0) zeroDraws 1 0
          (0, 0, (1/1000 : ℚ) * 1000) k).2.2)) :=
  C4_amended_altitudes_nonincreasing (constWindModel 0 0 0 0) zeroDraws
    (1/1000) 1 (by norm_num) (by norm_num)

/-! ### Claim C5 -/

/-- Claim C5 counterexample: invalid parameters are rejected — but by the
HTTP endpoint with `HTTPException(400, ...)`, never with an
`InvalidParameterError` (no such type exists in the code), and the simulator
itself performs no check at all: with `descent_rate = 0` its loop simply
never finishes (fuel 5 exhausted here). -/
theorem C5_counterexample :
    simulate_drop_validate 30 5 0 50 =
      some (ApiError.httpException 400 "Descent rate must be positive") ∧
    simulate_drop_validate 30 5 (-1) 50 =
      some (ApiError.httpException 400 "Descent rate must be positive") ∧
    simulate_drop_validate 30 5 5 0 =
      some (ApiError.httpException 400 "Monte Carlo runs must be between 10 and 200") ∧
    simulate_drop_validate 30 5 0 50 ≠ some ApiError.invalidParameterError ∧
    simRun (constWindModel 0 0 0 0) zeroDraws 0 1 5 0 0 0 1 = none := by
  refine ⟨?_, ?_, ?_, ?_, ?_⟩
  · norm_num [simulate_drop_validate]
  · norm_num [simulate_drop_validate]
  · norm_num [simulate_drop_validate]
  · norm_num [simulate_drop_validate]
    exact fun h => ApiError.noConfusion h
  · norm_num [simRun, constWindModel, zeroDraws, np_random_normal,
      update_position]

/-- Claim C5 amended: parameter validation happens in the HTTP endpoint
`simulate_drop` of `main.py` — not in the simulator — and raises
`HTTPException` with status 400, not `InvalidParameterError`:
`descent_rate ≤ 0` is rejected there (given an in-range altitude);
`drop_altitude_km ≤ 0` is rejected by the `20 ≤ altitude ≤ 50` range check;
`run_count < 1` is rejected by the `10 ≤ monte_carlo_runs ≤ 200` range
check.  `simulate_payload_drop` itself performs no validation: with
`descent_rate ≤ 0` its while loop never finishes. -/
theorem C5_amended_validation_at_http_layer (alt mass rate : ℚ) (runs : ℤ)
    (wm : WindModel) (ξ : ℕ → ℚ × ℚ) (fuel k : ℕ) (x y z : ℚ) :
    (alt ≤ 0 → simulate_drop_validate alt mass rate runs =
      some (ApiError.httpException 400 "Drop altitude must be between 20 and 50 km")) ∧
    (20 ≤ alt → alt ≤ 50 → rate ≤ 0 → simulate_drop_validate alt mass rate runs =
      some (ApiError.httpException 400 "Descent rate must be positive")) ∧
    (20 ≤ alt → alt ≤ 50 → 0 < rate → runs < 1 →
      simulate_drop_validate alt mass rate runs =
        some (ApiError.httpException 400 "Monte Carlo runs must be between 10 and 200")) ∧
    (rate ≤ 0 → 0 < z → simRun wm ξ rate 1 fuel k x y z = none) := by
  refine ⟨?_, ?_, ?_, ?_⟩
  · intro h
    rw [simulate_drop_validate, if_pos]
    intro hc
    linarith [hc.1]
  · intro h20 h50 hrate
    rw [simulate_drop_validate, if_neg (not_not_intro ⟨h20, h50⟩), if_pos hrate]
  · intro h20 h50 hrate hruns
    rw [simulate_drop_validate, if_neg (not_not_intro ⟨h20, h50⟩),
      if_neg (not_le.mpr hrate), if_pos]
    intro hc
    omega
  · intro hrate hz
    exact simRun_nonpos_rate wm ξ hrate fuel k x y z hz

/-- Witness for the amended C5: `descent_rate = 0` at altitude 25,
`drop_altitude_km = -1`, `run_count = 0`, and fuel-3 divergence of the
unvalidated simulator loop. -/
theorem C5_witness :
    simulate_drop_validate 25 5 0 50 =
      some (ApiError.httpException 400 "Descent rate must be positive") ∧
    simulate_drop_validate (-1) 5 5 50 =
      some (ApiError.httpException 400 "Drop altitude must be between 20 and 50 km") ∧
    simulate_drop_validate 25 5 5 0 =
      some (ApiError.httpException 400 "Monte Carlo runs must be between 10 and 200") ∧
    simRun (constWindModel 0 0 0 0) zeroDraws 0 1 3 0 0 0 1 = none :=
  ⟨(C5_amended_validation_at_http_layer 25 5 0 50 (constWindModel 0 0 0 0)
      zeroDraws 3 0 0 0 1).2.1 (by norm_num) (by norm_num) (by norm_num),
   (C5_amended_validation_at_http_layer (-1) 5 5 50 (constWindModel 0 0 0 0)
      zeroDraws 3 0 0 0 1).1 (by norm_num),
   (C5_amended_validation_at_http_layer 25 5 5 0 (constWindModel 0 0 0 0)
      zeroDraws 3 0 0 0 1).2.2.1 (by norm_num) (by norm_num) (by norm_num)
      (by norm_num),
   (C5_amended_validation_at_http_layer 25 5 0 50 (constWindModel 0 0 0 0)
      zeroDraws 3 0 0 0 1).2.2.2 (by norm_num) (by norm_num)⟩

/-! ### Claim C6 -/

/-- Claim C6 counterexample: `WindModel.__init__` performs no validation of
its own — an empty sample list that the libraries accept is accepted (no
`DataError`), and when the library call does fail (here: `pd.read_csv` on an
absent/empty file) the startup error surfaced by `main.py` is the untyped
`RuntimeError("Failed to load wind model: ...")`, not a `DataError`. -/
theorem C6_counterexample :
    windModelInit (Except.ok []) (fun _ => Except.ok ()) = Except.ok [] ∧
    initWindModelMain (Except.error "No columns to parse from file")
      (fun _ => Except.ok ()) =
      Except.error (StartupError.runtimeError
        "Failed to load wind model: No columns to parse from file") ∧
    (Except.error (StartupError.runtimeError
        "Failed to load wind model: No columns to parse from file") :
      Except StartupError (List WindSampleRow)) ≠
      Except.error StartupError.dataError := by
  refine ⟨rfl, rfl, ?_⟩
  intro h
  exact absurd (Except.error.injEq .. ▸ congrArg id h) (by simp)

/-- Claim C6 amended: estimator construction never produces a `DataError`
(no such type exists): whatever the abstracted pandas/sklearn calls accept is
accepted — in particular `__init__` adds no emptiness/finiteness/degeneracy
check of its own — and any library failure is wrapped by `main.py` into an
untyped `RuntimeError("Failed to load wind model: ...")` at startup. -/
theorem C6_amended_no_typed_data_error
    (read_csv : Except String (List WindSampleRow))
    (gprFit : List WindSampleRow → Except String Unit) :
    initWindModelMain read_csv gprFit ≠ Except.error StartupError.dataError ∧
    (∀ rows, windModelInit (Except.ok rows) (fun _ => Except.ok ()) =
      Except.ok rows) ∧
    (∀ e, read_csv = Except.error e →
      initWindModelMain read_csv gprFit =
        Except.error (StartupError.runtimeError
          ("Failed to load wind model: " ++ e))) := by
  refine ⟨?_, ?_, ?_⟩
  · cases h : windModelInit read_csv gprFit <;> simp [initWindModelMain, h]
  · intro rows
    rfl
  · intro e he
    rw [initWindModelMain]
    have : windModelInit read_csv gprFit = Except.error e := by
      rw [windModelInit, he]
      rfl
    rw [this]

/-- Witness for the amended C6 at a concrete failing `read_csv`. -/
theorem C6_witness :
    initWindModelMain (Except.error "boom") (fun _ => Except.ok ()) =
      Except.error (StartupError.runtimeError "Failed to load wind model: boom") ∧
    initWindModelMain (Except.error "boom") (fun _ => Except.ok ()) ≠
      Except.error StartupError.dataError ∧
    windModelInit (Except.ok []) (fun _ => Except.ok ()) = Except.ok [] :=
  ⟨(C6_amended_no_typed_data_error (Except.error "boom")
      (fun _ => Except.ok ())).2.2 "boom" rfl,
   (C6_amended_no_typed_data_error (Except.error "boom")
      (fun _ => Except.ok ())).1,
   (C6_amended_no_typed_data_error (Except.ok [])
      (fun _ => Except.ok ())).2.1 []⟩

/-! ### Claim C2 -/

/-- Claim C2 counterexample: a three-run invocation (one step per run, zero
wind, draws landing the runs at `x = 0.01, 0.01, 0.02`) returns
`mean_x_drift_m = 0.01`, while the population mean of the returned landing
points is `1/75 ≈ 0.0133…`: the returned statistic is the *rounded*
population mean, so it is not the population mean of the landing points as
the claim states. -/
theorem C2_counterexample :
    (simulate_payload_drop (constWindModel 0 0 0 0)
        (fun i _ => if i ≤ 1 then ((1:ℚ)/50, (0:ℚ)) else (1/25, 0)) 2
        (1/1000) 5 1 3).map
      (fun res => res.landing_statistics.mean_x_drift_m) = some (1/100) ∧
    (simulate_payload_drop (constWindModel 0 0 0 0)
        (fun i _ => if i ≤ 1 then ((1:ℚ)/50, (0:ℚ)) else (1/25, 0)) 2
        (1/1000) 5 1 3).map
      (fun res => np_mean (res.landing_points.map (·.x_drift_m))) =
      some (1/75) ∧
    (1/100 : ℚ) ≠ 1/75 := by
  refine ⟨?_, ?_, by norm_num⟩
  · norm_num [simulate_payload_drop, monteCarloLoop, simRun, mkStats, np_mean,
      constWindModel, np_random_normal, update_position, round2,
      round_half_even]
  · norm_num [simulate_payload_drop, monteCarloLoop, simRun, np_mean,
      constWindModel, np_random_normal, update_position, round2,
      round_half_even]

/-- Claim C2 amended: for positive altitude and descent rate and
`run_count ≥ 1`, `simulate_payload_drop` executes exactly `run_count`
stochastic runs: `landing_points` has length `run_count`; the landing
statistics are the population (not sample-corrected) mean and standard
deviation of those landing points *rounded to 2 decimal places* — hence
`std_x ≥ 0`, `std_y ≥ 0`, and both are `0` when `run_count = 1` — and
`representative_trajectory` is the trajectory of the last executed run. -/
theorem C2_amended_ensemble_statistics (wm : WindModel) (ξ : ℕ → ℕ → ℚ × ℚ)
    (alt mass r : ℚ) (runs : ℕ) (halt : 0 < alt) (hr : 0 < r)
    (hruns : 1 ≤ runs) :
    ∃ res, simulate_payload_drop wm ξ (⌈alt * 1000 / r⌉₊ + 1) alt mass r runs =
        some res ∧
      res.landing_points.length = runs ∧
      res.landing_statistics.mean_x_drift_m =
        round2 (np_mean (res.landing_points.map (·.x_drift_m))) ∧
      res.landing_statistics.mean_y_drift_m =
        round2 (np_mean (res.landing_points.map (·.y_drift_m))) ∧
      res.landing_statistics.std_x_drift_m =
        round2R (np_std (res.landing_points.map (·.x_drift_m))) ∧
      res.landing_statistics.std_y_drift_m =
        round2R (np_std (res.landing_points.map (·.y_drift_m))) ∧
      0 ≤ res.landing_statistics.std_x_drift_m ∧
      0 ≤ res.landing_statistics.std_y_drift_m ∧
      (runs = 1 → res.landing_statistics.std_x_drift_m = 0 ∧
        res.landing_statistics.std_y_drift_m = 0) ∧
      (∃ tj lx ly,
        simRun wm (ξ (runs - 1)) r 1 (⌈alt * 1000 / r⌉₊ + 1) 0 0 0
          (alt * 1000) = some (tj, lx, ly) ∧
        res.representative_trajectory = tj) := by
  refine ⟨_, simulate_payload_drop_spec wm ξ hr alt mass rfl
    (Nat.lt_succ_self _) runs, ?_, rfl, rfl, rfl, rfl, ?_, ?_, ?_, ?_⟩
  · simp
  · exact round2R_nonneg (np_std_nonneg _)
  · exact round2R_nonneg (np_std_nonneg _)
  · intro h1
    subst h1
    constructor
    · show round2R (np_std _) = 0
      rw [show ((List.range 1).map (fun j =>
          (⟨round2 (runFinal wm ξ r (alt * 1000) ⌈alt * 1000 / r⌉₊ j).1,
            round2 (runFinal wm ξ r (alt * 1000) ⌈alt * 1000 / r⌉₊ j).2.1⟩ :
            LandingPoint))).map (·.x_drift_m) =
          [round2 (runFinal wm ξ r (alt * 1000) ⌈alt * 1000 / r⌉₊ 0).1] from by
        simp [show List.range 1 = [0] from rfl]]
      rw [np_std_singleton, round2R_zero]
    · show round2R (np_std _) = 0
      rw [show ((List.range 1).map (fun j =>
          (⟨round2 (runFinal wm ξ r (alt * 1000) ⌈alt * 1000 / r⌉₊ j).1,
            round2 (runFinal wm ξ r (alt * 1000) ⌈alt * 1000 / r⌉₊ j).2.1⟩ :
            LandingPoint))).map (·.y_drift_m) =
          [round2 (runFinal wm ξ r (alt * 1000) ⌈alt * 1000 / r⌉₊ 0).2.1] from by
        simp [show List.range 1 = [0] from rfl]]
      rw [np_std_singleton, round2R_zero]
  · refine ⟨_, _, _,
      simRun_spec wm (ξ (runs - 1)) hr _ 0 0 0 (alt * 1000) rfl _
        (Nat.lt_succ_self _), ?_⟩
    show (if runs = 0 then [] else runTraj wm ξ r (alt * 1000)
        ⌈alt * 1000 / r⌉₊ (runs - 1)) = _
    rw [if_neg (by omega)]
    rfl

/-- Witness for the amended C2 at `drop_altitude_km = 1/1000`,
`descent_rate = 1`, three runs, zero wind and zero draws. -/
theorem C2_witness :
    ∃ res, simulate_payload_drop (constWindModel 0 0 0 0) (fun _ => zeroDraws)
        (⌈(1/1000 : ℚ) * 1000 / 1⌉₊ + 1) (1/1000) 5 1 3 = some res ∧
      res.landing_points.length = 3 ∧
      res.landing_statistics.mean_x_drift_m =
        round2 (np_mean (res.landing_points.map (·.x_drift_m))) ∧
      res.landing_statistics.mean_y_drift_m =
        round2 (np_mean (res.landing_points.map (·.y_drift_m))) ∧
      res.landing_statistics.std_x_drift_m =
        round2R (np_std (res.landing_points.map (·.x_drift_m))) ∧
      res.landing_statistics.std_y_drift_m =
        round2R (np_std (res.landing_points.map (·.y_drift_m))) ∧
      0 ≤ res.landing_statistics.std_x_drift_m ∧
      0 ≤ res.landing_statistics.std_y_drift_m ∧
      (3 = 1 → res.landing_statistics.std_x_drift_m = 0 ∧
        res.landing_statistics.std_y_drift_m = 0) ∧
      (∃ tj lx ly,
        simRun (constWindModel 0 0 0 0) ((fun _ => zeroDraws) (3 - 1)) 1 1
          (⌈(1/1000 : ℚ) * 1000 / 1⌉₊ + 1) 0 0 0 ((1/1000 : ℚ) * 1000) =
          some (tj, lx, ly) ∧
        res.representative_trajectory = tj) :=
  C2_amended_ensemble_statistics (constWindModel 0 0 0 0) (fun _ => zeroDraws)
    (1/1000) 5 1 3 (by norm_num) (by norm_num) (by norm_num)

/-! ### Claim C8 -/

/-- Claim C8 counterexample: the landing statistics are *not* derived from
the full-precision state — they are computed from the already-rounded landing
points.  Three one-step runs land (full precision) at
`x = 0.004, 0.004, 0.01`; rounding at assembly of the full-precision mean
would give `round2((0.004+0.004+0.01)/3) = round2(0.006) = 0.01`, but the
code rounds the landing points first (`0, 0, 0.01`) and returns
`mean_x_drift_m = round2(0.01/3) = 0`. -/
theorem C8_counterexample :
    (simulate_payload_drop (constWindModel 0 0 0 0)
        (fun i _ => if i ≤ 1 then ((1:ℚ)/125, (0:ℚ)) else (1/50, 0)) 2
        (1/1000) 5 1 3).map
      (fun res => res.landing_statistics.mean_x_drift_m) = some 0 ∧
    (List.range 3).map (fun i =>
      (specSteps (constWindModel 0 0 0 0)
        ((fun i _ => if i ≤ 1 then ((1:ℚ)/125, (0:ℚ)) else (1/50, 0)) i) 1 0
        (0, 0, (1/1000 : ℚ) * 1000) 1).1) = [1/250, 1/250, 1/100] ∧
    round2 (np_mean [1/250, 1/250, 1/100]) = 1/100 ∧
    (0 : ℚ) ≠ 1/100 := by
  refine ⟨?_, ?_, ?_, by norm_num⟩
  · norm_num [simulate_payload_drop, monteCarloLoop, simRun, mkStats, np_mean,
      constWindModel, np_random_normal, update_position, round2,
      round_half_even]
  · norm_num [List.range_succ, specSteps, specStep, constWindModel,
      np_random_normal]
  · norm_num [round2, round_half_even, np_mean]

/-- Claim C8 amended: the integration state carried between timesteps is the
full-precision `specSteps` state (which contains no rounding); trajectory
points and landing points are the 2-decimal rounding of that full-precision
state, applied exactly when they are recorded into the result; the landing
statistics are computed from the already-rounded landing points — not from
the full-precision landing coordinates — with one more rounding at result
assembly. -/
theorem C8_amended_rounding_boundary (wm : WindModel) (ξ : ℕ → ℕ → ℚ × ℚ)
    (alt mass r : ℚ) (runs : ℕ) (halt : 0 < alt) (hr : 0 < r)
    (hruns : 1 ≤ runs) :
    ∃ res, simulate_payload_drop wm ξ (⌈alt * 1000 / r⌉₊ + 1) alt mass r runs =
        some res ∧
      res.landing_points = (List.range runs).map (fun i =>
        ⟨round2 (specSteps wm (ξ i) r 0 (0, 0, alt * 1000) ⌈alt * 1000 / r⌉₊).1,
         round2 (specSteps wm (ξ i) r 0 (0, 0, alt * 1000)
           ⌈alt * 1000 / r⌉₊).2.1⟩) ∧
      res.representative_trajectory =
        (List.range ⌈alt * 1000 / r⌉₊).map (fun j =>
          ⟨round2 ((specSteps wm (ξ (runs - 1)) r 0 (0, 0, alt * 1000) j).2.2
              / 1000),
           round2 ((specSteps wm (ξ (runs - 1)) r 0 (0, 0, alt * 1000)
             (j + 1)).1),
           round2 ((specSteps wm (ξ (runs - 1)) r 0 (0, 0, alt * 1000)
             (j + 1)).2.1)⟩) ∧
      res.landing_statistics.mean_x_drift_m =
        round2 (np_mean (res.landing_points.map (·.x_drift_m))) ∧
      res.landing_statistics.mean_y_drift_m =
        round2 (np_mean (res.landing_points.map (·.y_drift_m))) ∧
      res.landing_statistics.std_x_drift_m =
        round2R (np_std (res.landing_points.map (·.x_drift_m))) ∧
      res.landing_statistics.std_y_drift_m =
        round2R (np_std (res.landing_points.map (·.y_drift_m))) := by
  refine ⟨_, simulate_payload_drop_spec wm ξ hr alt mass rfl
    (Nat.lt_succ_self _) runs, rfl, ?_, rfl, rfl, rfl, rfl⟩
  show (if runs = 0 then [] else runTraj wm ξ r (alt * 1000)
      ⌈alt * 1000 / r⌉₊ (runs - 1)) = _
  rw [if_neg (by omega)]
  exact trajOf_eq_map wm (ξ (runs - 1)) r _ 0 (0, 0, alt * 1000)

/-- Witness for the amended C8 at `drop_altitude_km = 1/1000`,
`descent_rate = 1`, two runs, zero wind and zero draws. -/
theorem C8_witness :
    ∃ res, simulate_payload_drop (constWindModel 0 0 0 0) (fun _ => zeroDraws)
        (⌈(1/1000 : ℚ) * 1000 / 1⌉₊ + 1) (1/1000) 5 1 2 = some res ∧
      res.landing_points = (List.range 2).map (fun i =>
        ⟨round2 (specSteps (constWindModel 0 0 0 0) ((fun _ => zeroDraws) i) 1
            0 (0, 0, (1/1000 : ℚ) * 1000) ⌈(1/1000 : ℚ) * 1000 / 1⌉₊).1,
         round2 (specSteps (constWindModel 0 0 0 0) ((fun _ => zeroDraws) i) 1
            0 (0, 0, (1/1000 : ℚ) * 1000) ⌈(1/1000 : ℚ) * 1000 / 1⌉₊).2.1⟩) ∧
      res.representative_trajectory =
        (List.range ⌈(1/1000 : ℚ) * 1000 / 1⌉₊).map (fun j =>
          ⟨round2 ((specSteps (constWindModel 0 0 0 0)
              ((fun _ => zeroDraws) (2 - 1)) 1 0
              (0, 0, (1/1000 : ℚ) * 1000) j).2.2 / 1000),
           round2 ((specSteps (constWindModel 0 0 0 0)
              ((fun _ => zeroDraws) (2 - 1)) 1 0
              (0, 0, (1/1000 : ℚ) * 1000) (j + 1)).1),
           round2 ((specSteps (constWindModel 0 0 0 0)
              ((fun _ => zeroDraws) (2 - 1)) 1 0
              (0, 0, (1/1000 : ℚ) * 1000) (j + 1)).2.1)⟩) ∧
      res.landing_statistics.mean_x_drift_m =
        round2 (np_mean (res.landing_points.map (·.x_drift_m))) ∧
      res.landing_statistics.mean_y_drift_m =
        round2 (np_mean (res.landing_points.map (·.y_drift_m))) ∧
      res.landing_statistics.std_x_drift_m =
        round2R (np_std (res.landing_points.map (·.x_drift_m))) ∧
      res.landing_statistics.std_y_drift_m =
        round2R (np_std (res.landing_points.map (·.y_drift_m))) :=
  C8_amended_rounding_boundary (constWindModel 0 0 0 0) (fun _ => zeroDraws)
    (1/1000) 5 1 2 (by norm_num) (by norm_num) (by norm_num)

end WindPayload
